import Mathlib

/-!
Shallow embedding of the sigstore verification client of policy-evaluator
(src/callback_handler/sigstore_verification.rs).

External collaborators (the policy_fetcher Verifier, the sigstore cosign
client and its constraint evaluation, url::Url::parse, the cosign client
builder's build step) are not part of this repository; they are passed in
as oracle functions, so every theorem quantifies over their behaviour.
Where a claim depends on the behaviour the spec ascribes to such a
collaborator, a clearly marked spec-modelled instantiation is used.
-/

namespace PolicyEvaluator

/-- Option of HashMap of String to String from the Rust code, modelled as an
association list (the code only carries the map through unchanged). -/
abbrev Annots := List (String × String)

/-- VerificationResponse from kubewarden_policy_sdk: digest plus trust flag. -/
structure VerificationResponse where
  digest : String
  is_trusted : Bool
deriving DecidableEq, Repr

/-- A parsed url::Url value, kept abstract as its serialization. -/
structure Url where
  serialization : String
deriving DecidableEq, Repr

/-- Subject from policy_fetcher verify config. -/
inductive Subject where
  | Equal (s : String)
  | UrlPrefix (u : Url)
deriving DecidableEq, Repr

/-- Signature from policy_fetcher verify config: one identity constraint. -/
inductive Signature where
  | PubKey (owner : Option String) (key : String) (annotations : Option Annots)
  | GenericIssuer (issuer : String) (subject : Subject) (annotations : Option Annots)
  | GithubAction (owner : String) (repo : Option String) (annotations : Option Annots)
deriving DecidableEq, Repr

/-- LatestVerificationConfig: the two constraint groups. -/
structure LatestVerificationConfig where
  all_of : Option (List Signature)
  any_of : Option (List Signature)
deriving DecidableEq, Repr

/-- KeylessInfo from kubewarden_policy_sdk. -/
structure KeylessInfo where
  issuer : String
  subject : String
deriving DecidableEq, Repr

/-- KeylessPrefixInfo from kubewarden_policy_sdk. -/
structure KeylessPrefixInfo where
  issuer : String
  url_prefix : String
deriving DecidableEq, Repr

/-- Outcome of one verification operation: Ok response, Err (anyhow error,
modelled by its message), or a Rust panic (the .expect in
verify_keyless_prefix). -/
inductive VerifyOutcome where
  | ok (response : VerificationResponse)
  | err (message : String)
  | panic (message : String)
deriving DecidableEq, Repr

/-- Oracle for the external policy_fetcher Verifier::verify: image reference
and verification config to either the resolved digest or an error. Each
invocation performs the registry fetch, so the operations below also count
its invocations. -/
abbrev VerifierOracle := String → LatestVerificationConfig → Except String String

/-- Oracle for the external url::Url::parse: none models a parse error. -/
abbrev UrlParse := String → Option Url

/-- Client::verify_public_key. Returns the outcome paired with the number of
times the verifier (the fetch primitive) was invoked. -/
def verify_public_key (verify : VerifierOracle) (image : String)
    (pub_keys : List String) (annotations : Option Annots) :
    VerifyOutcome × Nat :=
  if pub_keys.isEmpty then
    (.err "Must provide at least one pub key", 0)
  else
    let signatures_all_of : List Signature :=
      pub_keys.foldl (fun acc k => acc ++ [Signature.PubKey none k annotations]) []
    let verification_config : LatestVerificationConfig :=
      { all_of := some signatures_all_of, any_of := none }
    match verify image verification_config with
    | .ok digest => (.ok { digest := digest, is_trusted := true }, 1)
    | .error e => (.err e, 1)

/-- Client::verify_keyless. -/
def verify_keyless (verify : VerifierOracle) (image : String)
    (keyless : List KeylessInfo) (annotations : Option Annots) :
    VerifyOutcome × Nat :=
  if keyless.isEmpty then
    (.err "Must provide keyless info", 0)
  else
    let signatures_all_of : List Signature :=
      keyless.foldl
        (fun acc k =>
          acc ++ [Signature.GenericIssuer k.issuer (Subject.Equal k.subject) annotations]) []
    let verification_config : LatestVerificationConfig :=
      { all_of := some signatures_all_of, any_of := none }
    match verify image verification_config with
    | .ok digest => (.ok { digest := digest, is_trusted := true }, 1)
    | .error e => (.err e, 1)

/-- The signature-building loop of verify_keyless_prefix. The Rust loop calls
url::Url::parse(..).expect(..) on each element; a parse failure panics, which
this model renders as the whole build returning none. -/
def build_keyless_prefix_signatures (parse_url : UrlParse)
    (annotations : Option Annots) :
    List KeylessPrefixInfo → Option (List Signature)
  | [] => some []
  | k :: rest =>
    match parse_url k.url_prefix with
    | none => none
    | some u =>
      (build_keyless_prefix_signatures parse_url annotations rest).map
        (fun sigs =>
          Signature.GenericIssuer k.issuer (Subject.UrlPrefix u) annotations :: sigs)

/-- Client::verify_keyless_prefix. A url parse failure on a list element
yields the panic outcome with the .expect message and no fetch. -/
def verify_keyless_prefix (verify : VerifierOracle) (parse_url : UrlParse)
    (image : String) ( keyless_prefix : List KeylessPrefixInfo)
    (annotations : Option Annots) : VerifyOutcome × Nat :=
  if keyless_prefix.isEmpty then
    (.err "Must provide keyless info", 0)
  else
    match build_keyless_prefix_signatures parse_url annotations keyless_prefix with
    | none => (.panic "Cannot build url prefix", 0)
    | some signatures_all_of =>
      let verification_config : LatestVerificationConfig :=
        { all_of := some signatures_all_of, any_of := none }
      match verify image verification_config with
      | .ok digest => (.ok { digest := digest, is_trusted := true }, 1)
      | .error e => (.err e, 1)

/-- Client::verify_github_actions. -/
def verify_github_actions (verify : VerifierOracle) (image : String)
    (owner : String) (repo : Option String) (annotations : Option Annots) :
    VerifyOutcome × Nat :=
  if owner.isEmpty then
    (.err "Must provide owner info", 0)
  else
    let signatures_all_of : List Signature :=
      [Signature.GithubAction owner repo annotations]
    let verification_config : LatestVerificationConfig :=
      { all_of := some signatures_all_of, any_of := none }
    match verify image verification_config with
    | .ok digest => (.ok { digest := digest, is_trusted := true }, 1)
    | .error e => (.err e, 1)

/-- The shared tail of the four identity operations: delegate to the verifier
and translate its result. Used to state what config an operation hands to the
verifier. -/
def run_verifier (verify : VerifierOracle) (image : String)
    (verification_config : LatestVerificationConfig) : VerifyOutcome × Nat :=
  match verify image verification_config with
  | .ok digest => (.ok { digest := digest, is_trusted := true }, 1)
  | .error e => (.err e, 1)

/-- C2: each identity-based operation rejects an empty identity input with an
invalid-input error and never invokes the verifier (fetch count zero). -/
theorem claim_C2_empty_input_no_fetch :
    ∀ (verify : VerifierOracle) (parse_url : UrlParse) (image : String)
      (annotations : Option Annots) (repo : Option String),
      verify_public_key verify image [] annotations =
        (.err "Must provide at least one pub key", 0) ∧
      verify_keyless verify image [] annotations =
        (.err "Must provide keyless info", 0) ∧
      verify_keyless_prefix verify parse_url image [] annotations =
        (.err "Must provide keyless info", 0) ∧
      verify_github_actions verify image "" repo annotations =
        (.err "Must provide owner info", 0) := by
  intro verify parse_url image annotations repo
  refine ⟨rfl, rfl, rfl, rfl⟩

/-- The push-into-accumulator loop used by the operations equals List.map. -/
theorem foldl_push_eq_map {α β : Type} (f : α → β) (xs : List α) (acc : List β) :
    xs.foldl (fun a x => a ++ [f x]) acc = acc ++ xs.map f := by
  induction xs generalizing acc with
  | nil => simp
  | cons x xs ih => simp [List.foldl_cons, ih]

/-- When every url prefix parses, the signature build succeeds and is the
element-wise map over the input list. -/
theorem build_keyless_prefix_signatures_eq_map (parse_url : UrlParse)
    (annotations : Option Annots) (ks : List KeylessPrefixInfo)
    (h : ∀ k ∈ ks, (parse_url k.url_prefix).isSome) :
    build_keyless_prefix_signatures parse_url annotations ks =
      some (ks.map (fun k =>
        Signature.GenericIssuer k.issuer
          (Subject.UrlPrefix ((parse_url k.url_prefix).getD { serialization := "" }))
          annotations)) := by
  induction ks with
  | nil => rfl
  | cons k rest ih =>
    have hk : (parse_url k.url_prefix).isSome := h k (List.mem_cons_self k rest)
    obtain ⟨u, hu⟩ := Option.isSome_iff_exists.mp hk
    have hrest := ih (fun x hx => h x (List.mem_cons_of_mem k hx))
    simp [build_keyless_prefix_signatures, hu, hrest]

/-- When some url prefix fails to parse, the signature build fails. -/
theorem build_keyless_prefix_signatures_none (parse_url : UrlParse)
    (annotations : Option Annots) (ks : List KeylessPrefixInfo)
    (h : ∃ k ∈ ks, parse_url k.url_prefix = none) :
    build_keyless_prefix_signatures parse_url annotations ks = none := by
  induction ks with
  | nil => simp at h
  | cons k rest ih =>
    rcases h with ⟨x, hx, hnone⟩
    rcases List.mem_cons.mp hx with hxk | hxr
    · subst hxk
      simp [build_keyless_prefix_signatures, hnone]
    · cases hu : parse_url k.url_prefix with
      | none => simp [build_keyless_prefix_signatures, hu]
      | some u =>
        simp [build_keyless_prefix_signatures, hu, ih ⟨x, hxr, hnone⟩]

/-- C3: for a non-empty input list, each identity-list operation delegates to
the verifier with a policy holding exactly one constraint per input element,
all in the all_of group with any_of absent, the caller's annotation map
attached unchanged to every constraint; verify_keyless builds Equal subjects
and verify_keyless_prefix builds UrlPrefix subjects. -/
theorem claim_C3_policy_construction :
    ∀ (verify : VerifierOracle) (parse_url : UrlParse) (image : String)
      (pub_keys : List String) (keyless : List KeylessInfo)
      ( keyless_prefix : List KeylessPrefixInfo) (annotations : Option Annots),
      (pub_keys ≠ [] →
        verify_public_key verify image pub_keys annotations =
          run_verifier verify image
            { all_of := some (pub_keys.map (fun k =>
                Signature.PubKey none k annotations)),
              any_of := none }) ∧
      (keyless ≠ [] →
        verify_keyless verify image keyless annotations =
          run_verifier verify image
            { all_of := some (keyless.map (fun k =>
                Signature.GenericIssuer k.issuer (Subject.Equal k.subject) annotations)),
              any_of := none }) ∧
      ( keyless_prefix ≠ [] →
        (∀ k ∈ keyless_prefix, (parse_url k.url_prefix).isSome) →
        verify_keyless_prefix verify parse_url image keyless_prefix annotations =
          run_verifier verify image
            { all_of := some ( keyless_prefix.map (fun k =>
                Signature.GenericIssuer k.issuer
                  (Subject.UrlPrefix ((parse_url k.url_prefix).getD
                    { serialization := "" }))
                  annotations)),
              any_of := none }) := by
  intro verify parse_url image pub_keys keyless keyless_prefix annotations
  refine ⟨?_, ?_, ?_⟩
  · intro hne
    have hempty : pub_keys.isEmpty = false := by
      simpa [List.isEmpty_iff] using hne
    unfold verify_public_key run_verifier
    rw [hempty]
    dsimp only
    rw [foldl_push_eq_map, List.nil_append]
    rfl
  · intro hne
    have hempty : keyless.isEmpty = false := by
      simpa [List.isEmpty_iff] using hne
    unfold verify_keyless run_verifier
    rw [hempty]
    dsimp only
    rw [foldl_push_eq_map, List.nil_append]
    rfl
  · intro hne hparse
    have hempty : keyless_prefix.isEmpty = false := by
      simpa [List.isEmpty_iff] using hne
    unfold verify_keyless_prefix run_verifier
    rw [hempty]
    dsimp only
    rw [build_keyless_prefix_signatures_eq_map parse_url annotations keyless_prefix hparse]
    rfl

/-- C4: a non-empty keyless-prefix list holding a url prefix that does not
parse makes verify_keyless_prefix fail fatally (the Rust .expect panic) while
building the policy, with the verifier never invoked. -/
theorem claim_C4_invalid_url_prefix_panics_before_fetch
    (verify : VerifierOracle) (parse_url : UrlParse) (image : String)
    ( keyless_prefix : List KeylessPrefixInfo) (annotations : Option Annots)
    (hne : keyless_prefix ≠ [])
    (hbad : ∃ k ∈ keyless_prefix, parse_url k.url_prefix = none) :
    verify_keyless_prefix verify parse_url image keyless_prefix annotations =
      (.panic "Cannot build url prefix", 0) := by
  have hempty : keyless_prefix.isEmpty = false := by
    simpa [List.isEmpty_iff] using hne
  unfold verify_keyless_prefix
  rw [hempty]
  dsimp only
  rw [build_keyless_prefix_signatures_none parse_url annotations keyless_prefix hbad]
  rfl

/-- Witness for C4 at a concrete input: a parser that rejects the string and
a one-element list. -/
theorem claim_C4_witness :
    verify_keyless_prefix (fun _ _ => Except.error "unused") (fun _ => none)
      "registry.example/app:v1" [{ issuer := "https://token.actions", url_prefix := "not a url" }]
      none = (.panic "Cannot build url prefix", 0) := by
  exact claim_C4_invalid_url_prefix_panics_before_fetch _ _ _ _ _
    (by simp) ⟨{ issuer := "https://token.actions", url_prefix := "not a url" }, by simp, rfl⟩

/-- CertificateEncoding from sigstore registry. -/
inductive CertificateEncoding where
  | Pem
  | Der
deriving DecidableEq, Repr

/-- Certificate from sigstore registry: raw bytes plus encoding. -/
structure Certificate where
  data : List Nat
  encoding : CertificateEncoding
deriving DecidableEq, Repr

/-- One boxed verification constraint of verify_certificate: the certificate
verifier (of external type CertV) or the AnnotationVerifier over a required
map. -/
inductive Constraint (CertV : Type) where
  | certificate (cv : CertV)
  | annotations (a : Annots)
deriving DecidableEq, Repr

/-- Oracle for the external fetch_sigstore_remote_data: image to (digest,
trusted layers) or a fetch error. -/
abbrev FetchOracle (Layer : Type) := String → Except String (String × List Layer)

/-- Oracle for the external CertificateVerifier::from_pem: certificate bytes,
require_rekor_bundle flag and optional chain to a verifier value or a parse
error. -/
abbrev FromPemOracle (CertV : Type) :=
  List Nat → Bool → Option (List Certificate) → Except String CertV

/-- Oracle for the external sigstore cosign verify_constraints. -/
abbrev ConstraintsOracle (CertV Layer : Type) :=
  List Layer → List (Constraint CertV) → Except String Unit

/-- Client::verify_certificate. Returns the outcome together with the number
of fetch invocations and of from_pem (certificate parse) invocations. -/
def verify_certificate {CertV Layer : Type}
    (fetch_sigstore_remote_data : FetchOracle Layer)
    (certificate_verifier_from_pem : FromPemOracle CertV)
    (verify_constraints : ConstraintsOracle CertV Layer)
    (image : String) (certificate : List Nat)
    (certificate_chain : Option (List (List Nat)))
    (require_rekor_bundle : Bool) (annotations : Option Annots) :
    VerifyOutcome × Nat × Nat :=
  match fetch_sigstore_remote_data image with
  | .error e => (.err e, 1, 0)
  | .ok (source_image_digest, trusted_layers) =>
    let chain : Option (List Certificate) :=
      certificate_chain.map (fun certs =>
        certs.map (fun cert_data =>
          { data := cert_data, encoding := CertificateEncoding.Pem }))
    match certificate_verifier_from_pem certificate require_rekor_bundle chain with
    | .error e => (.err e, 1, 1)
    | .ok cert_verifier =>
      let verification_constraints : List (Constraint CertV) :=
        match annotations with
        | some a => [Constraint.certificate cert_verifier, Constraint.annotations a]
        | none => [Constraint.certificate cert_verifier]
      match (verify_constraints trusted_layers verification_constraints).map
          (fun _ => source_image_digest) with
      | .ok digest => (.ok { digest := digest, is_trusted := true }, 1, 1)
      | .error e => (.err ("verification failed: " ++ e), 1, 1)

/-- Mapping a constant over an Except that came out Ok forces the Ok payload
to be that constant. -/
theorem except_map_const_ok {e a b : Type} (E : Except e a) (x y : b)
    (h : E.map (fun _ => x) = Except.ok y) : x = y := by
  cases E with
  | ok u => simpa [Except.map] using h
  | error err => simp [Except.map] at h

/-- C1: every verification operation either propagates an error or returns a
response whose is_trusted field is true and whose digest is exactly the
digest resolved for the image (by the verifier on the identity path, by the
trusted-layer fetch on the certificate path); no operation can produce a
response with is_trusted false. -/
theorem claim_C1_trusted_only_with_resolved_digest :
    ∀ (verify : VerifierOracle) (parse_url : UrlParse)
      {CertV Layer : Type} (fetch : FetchOracle Layer)
      (from_pem : FromPemOracle CertV) (vc : ConstraintsOracle CertV Layer)
      (image : String) (pub_keys : List String) (keyless : List KeylessInfo)
      ( keyless_prefix : List KeylessPrefixInfo) (owner : String)
      (repo : Option String) (certificate : List Nat)
      (certificate_chain : Option (List (List Nat)))
      (require_rekor_bundle : Bool) (annotations : Option Annots)
      (r : VerificationResponse),
      ((verify_public_key verify image pub_keys annotations).1 = .ok r →
        r.is_trusted = true ∧ ∃ cfg, verify image cfg = .ok r.digest) ∧
      ((verify_keyless verify image keyless annotations).1 = .ok r →
        r.is_trusted = true ∧ ∃ cfg, verify image cfg = .ok r.digest) ∧
      (( verify_keyless_prefix verify parse_url image keyless_prefix annotations).1
          = .ok r →
        r.is_trusted = true ∧ ∃ cfg, verify image cfg = .ok r.digest) ∧
      ((verify_github_actions verify image owner repo annotations).1 = .ok r →
        r.is_trusted = true ∧ ∃ cfg, verify image cfg = .ok r.digest) ∧
      ((verify_certificate fetch from_pem vc image certificate certificate_chain
          require_rekor_bundle annotations).1 = .ok r →
        r.is_trusted = true ∧
          ∃ trusted_layers, fetch image = .ok (r.digest, trusted_layers)) := by
  intro verify parse_url CertV Layer fetch from_pem vc image pub_keys keyless
    keyless_prefix owner repo certificate certificate_chain require_rekor_bundle
    annotations r
  refine ⟨?_, ?_, ?_, ?_, ?_⟩
  · intro h
    unfold verify_public_key at h
    dsimp only at h
    split at h
    · exact absurd h (by simp)
    · split at h
      · next digest heq =>
        simp only [Prod.fst] at h
        obtain rfl : VerificationResponse.mk digest true = r := by
          exact VerifyOutcome.ok.inj h
        exact ⟨rfl, ⟨_, heq⟩⟩
      · exact absurd h (by simp)
  · intro h
    unfold verify_keyless at h
    dsimp only at h
    split at h
    · exact absurd h (by simp)
    · split at h
      · next digest heq =>
        simp only [Prod.fst] at h
        obtain rfl : VerificationResponse.mk digest true = r := by
          exact VerifyOutcome.ok.inj h
        exact ⟨rfl, ⟨_, heq⟩⟩
      · exact absurd h (by simp)
  · intro h
    unfold verify_keyless_prefix at h
    dsimp only at h
    split at h
    · exact absurd h (by simp)
    · split at h
      · exact absurd h (by simp)
      · split at h
        · next digest heq =>
          simp only [Prod.fst] at h
          obtain rfl : VerificationResponse.mk digest true = r := by
            exact VerifyOutcome.ok.inj h
          exact ⟨rfl, ⟨_, heq⟩⟩
        · exact absurd h (by simp)
  · intro h
    unfold verify_github_actions at h
    dsimp only at h
    split at h
    · exact absurd h (by simp)
    · split at h
      · next digest heq =>
        simp only [Prod.fst] at h
        obtain rfl : VerificationResponse.mk digest true = r := by
          exact VerifyOutcome.ok.inj h
        exact ⟨rfl, ⟨_, heq⟩⟩
      · exact absurd h (by simp)
  · intro h
    unfold verify_certificate at h
    split at h
    · exact absurd h (by simp)
    · next source_image_digest trusted_layers heq =>
      dsimp only at h
      split at h
      · exact absurd h (by simp)
      · next cert_verifier heq2 =>
        split at h
        · next digest2 heq3 =>
          simp only [Prod.fst] at h
          obtain rfl : VerificationResponse.mk digest2 true = r := by
            exact VerifyOutcome.ok.inj h
          have hd : source_image_digest = digest2 :=
            except_map_const_ok _ _ _ heq3
          refine ⟨rfl, trusted_layers, ?_⟩
          rw [heq, hd]
        · exact absurd h (by simp)

/-- Modelled from the spec: a trusted layer as the certificate path sees it —
whether the supplied certificate validates against this layer, whether the
layer carries a transparency-log (Rekor) bundle, and the layer's signed
annotations. The cryptographic checks themselves live in the external
sigstore library. -/
structure SpecLayer where
  cert_validates : Bool
  has_rekor_bundle : Bool
  layer_annotations : Annots
deriving DecidableEq, Repr

/-- Modelled from the spec: the external CertificateVerifier::from_pem,
abstracted to the data the constraint semantics in the spec depends on — the
require_rekor_bundle flag (certificate validity per layer is a field of
SpecLayer). Parsing always succeeds in this instantiation. -/
def spec_certificate_verifier_from_pem : FromPemOracle Bool :=
  fun _certificate require_rekor_bundle _chain => Except.ok require_rekor_bundle

/-- Modelled from the spec: whether one constraint matches one trusted layer.
A certificate constraint matches when the certificate validates and, if
require_rekor_bundle was set, the layer carries a Rekor bundle; an annotation
constraint matches when the layer's annotations are a superset of the
required map. -/
def spec_constraint_matches (c : Constraint Bool) (l : SpecLayer) : Bool :=
  match c with
  | .certificate require_rekor_bundle =>
    l.cert_validates && (!require_rekor_bundle || l.has_rekor_bundle)
  | .annotations a => a.all (fun kv => l.layer_annotations.contains kv)

/-- Modelled from the spec: the external sigstore cosign verify_constraints —
Ok exactly when every constraint in the list matches at least one trusted
layer. -/
def spec_verify_constraints : ConstraintsOracle Bool SpecLayer :=
  fun trusted_layers constraints =>
    if constraints.all (fun c => trusted_layers.any (spec_constraint_matches c)) then
      Except.ok ()
    else
      Except.error "no signature found to verify"

/-- The constraint list the certificate path assembles: the certificate
constraint, then the annotation constraint exactly when an annotation map was
supplied. -/
def certificate_path_constraints (require_rekor_bundle : Bool)
    (annotations : Option Annots) : List (Constraint Bool) :=
  Constraint.certificate require_rekor_bundle ::
    (match annotations with
     | some a => [Constraint.annotations a]
     | none => [])

/-- Evaluation of verify_certificate under the spec-modelled oracles, as one
closed form: success with the fetched digest exactly when every constraint of
the certificate path matches some trusted layer. -/
theorem verify_certificate_spec_eval
    (fetch : FetchOracle SpecLayer) (image : String) (certificate : List Nat)
    (certificate_chain : Option (List (List Nat))) (require_rekor_bundle : Bool)
    (annotations : Option Annots) (digest : String)
    (trusted_layers : List SpecLayer)
    (hfetch : fetch image = Except.ok (digest, trusted_layers)) :
    (verify_certificate fetch spec_certificate_verifier_from_pem
        spec_verify_constraints image certificate certificate_chain
        require_rekor_bundle annotations).1 =
      (if (certificate_path_constraints require_rekor_bundle annotations).all
          (fun c => trusted_layers.any (spec_constraint_matches c)) then
        VerifyOutcome.ok { digest := digest, is_trusted := true }
      else
        VerifyOutcome.err "verification failed: no signature found to verify") := by
  unfold verify_certificate
  rw [hfetch]
  unfold spec_certificate_verifier_from_pem spec_verify_constraints
    certificate_path_constraints
  cases annotations with
  | none =>
    dsimp only
    by_cases hall :
        [Constraint.certificate require_rekor_bundle].all
          (fun c => trusted_layers.any (spec_constraint_matches c)) = true
    · rw [if_pos hall, if_pos hall]
      rfl
    · rw [if_neg hall, if_neg hall]
      rfl
  | some a =>
    dsimp only
    by_cases hall :
        [Constraint.certificate require_rekor_bundle, Constraint.annotations a].all
          (fun c => trusted_layers.any (spec_constraint_matches c)) = true
    · rw [if_pos hall, if_pos hall]
      rfl
    · rw [if_neg hall, if_neg hall]
      rfl

/-- C5: under the spec-modelled constraint semantics, verify_certificate
succeeds exactly when every constraint of the list — the certificate
constraint plus one annotation constraint iff annotations were supplied —
matches at least one fetched trusted layer, and any success carries the
digest discovered during the trusted-layer fetch. -/
theorem claim_C5_certificate_constraint_list
    (fetch : FetchOracle SpecLayer) (image : String) (certificate : List Nat)
    (certificate_chain : Option (List (List Nat))) (require_rekor_bundle : Bool)
    (annotations : Option Annots) (digest : String)
    (trusted_layers : List SpecLayer)
    (hfetch : fetch image = Except.ok (digest, trusted_layers)) :
    (((verify_certificate fetch spec_certificate_verifier_from_pem
          spec_verify_constraints image certificate certificate_chain
          require_rekor_bundle annotations).1 =
        VerifyOutcome.ok { digest := digest, is_trusted := true }) ↔
      (∀ c ∈ certificate_path_constraints require_rekor_bundle annotations,
        ∃ l ∈ trusted_layers, spec_constraint_matches c l = true)) ∧
    (∀ r, (verify_certificate fetch spec_certificate_verifier_from_pem
          spec_verify_constraints image certificate certificate_chain
          require_rekor_bundle annotations).1 = VerifyOutcome.ok r →
        r = { digest := digest, is_trusted := true }) := by
  rw [verify_certificate_spec_eval fetch image certificate certificate_chain
    require_rekor_bundle annotations digest trusted_layers hfetch]
  by_cases hall :
      (certificate_path_constraints require_rekor_bundle annotations).all
        (fun c => trusted_layers.any (spec_constraint_matches c)) = true
  · rw [if_pos hall]
    refine ⟨⟨fun _ => ?_, fun _ => rfl⟩, fun r hr => (VerifyOutcome.ok.inj hr).symm⟩
    intro c hc
    have := List.all_eq_true.mp hall c hc
    simpa [List.any_eq_true] using this
  · rw [if_neg hall]
    refine ⟨⟨fun hcontra => absurd hcontra (by simp), fun hmatch => ?_⟩,
      fun r hr => absurd hr (by simp)⟩
    exfalso
    apply hall
    rw [List.all_eq_true]
    intro c hc
    have := hmatch c hc
    simpa [List.any_eq_true] using this

/-- A concrete trusted layer that validates the certificate, carries a Rekor
bundle and two annotations. -/
def c5_layer : SpecLayer :=
  { cert_validates := true, has_rekor_bundle := true,
    layer_annotations := [("env", "prod"), ("team", "x")] }

/-- A concrete fetch oracle returning one digest and the single c5_layer. -/
def c5_fetch : FetchOracle SpecLayer :=
  fun _ => Except.ok ("sha256:abc", [c5_layer])

/-- Witness for C5 at a concrete input: one layer that validates the
certificate and carries a bundle, with one required annotation present. -/
theorem claim_C5_witness :
    (((verify_certificate c5_fetch spec_certificate_verifier_from_pem
          spec_verify_constraints "registry.example/app:v1" [48, 49] none true
          (some [("env", "prod")])).1 =
        VerifyOutcome.ok { digest := "sha256:abc", is_trusted := true }) ↔
      (∀ c ∈ certificate_path_constraints true (some [("env", "prod")]),
        ∃ l ∈ [c5_layer], spec_constraint_matches c l = true)) ∧
    (∀ r, (verify_certificate c5_fetch spec_certificate_verifier_from_pem
          spec_verify_constraints "registry.example/app:v1" [48, 49] none true
          (some [("env", "prod")])).1 = VerifyOutcome.ok r →
        r = { digest := "sha256:abc", is_trusted := true }) := by
  exact claim_C5_certificate_constraint_list c5_fetch "registry.example/app:v1"
    [48, 49] none true (some [("env", "prod")]) "sha256:abc" [c5_layer] rfl

/-- Layer set for the C6 counterexample: one bundle-less layer on which the
certificate validates, next to a fully matching layer. -/
def c6_bad_layer : SpecLayer :=
  { cert_validates := true, has_rekor_bundle := false, layer_annotations := [] }

/-- A layer that validates the certificate and carries a Rekor bundle. -/
def c6_good_layer : SpecLayer :=
  { cert_validates := true, has_rekor_bundle := true, layer_annotations := [] }

/-- The two-layer set of the C6 counterexample. -/
def c6_layers : List SpecLayer := [c6_bad_layer, c6_good_layer]

/-- Fetch oracle for the C6 counterexample. -/
def c6_fetch : FetchOracle SpecLayer :=
  fun _ => Except.ok ("sha256:def", c6_layers)

/-- Counterexample to C6 as stated: with require_rekor_bundle set, the layer
set does contain a layer on which the certificate validates but that carries
no Rekor bundle, yet verify_certificate succeeds, because another layer
satisfies the certificate constraint. -/
theorem claim_C6_counterexample :
    (∃ l ∈ c6_layers, l.cert_validates = true ∧ l.has_rekor_bundle = false) ∧
    (verify_certificate c6_fetch spec_certificate_verifier_from_pem
        spec_verify_constraints "registry.example/app:v1" [48] none true none).1 =
      VerifyOutcome.ok { digest := "sha256:def", is_trusted := true } := by
  constructor
  · exact ⟨c6_bad_layer, by decide, rfl, rfl⟩
  · rfl

/-- C6 amended: with require_rekor_bundle set, a fetched layer set in which
the certificate validates on some layer carrying no Rekor bundle, and in
which no layer at all both validates the certificate and carries a bundle,
makes verify_certificate return a verification-failure error, not success. -/
theorem claim_C6_missing_bundle_fails
    (fetch : FetchOracle SpecLayer) (image : String) (certificate : List Nat)
    (certificate_chain : Option (List (List Nat))) (annotations : Option Annots)
    (digest : String) (trusted_layers : List SpecLayer)
    (hfetch : fetch image = Except.ok (digest, trusted_layers))
    (hbundleless : ∃ l ∈ trusted_layers,
      l.cert_validates = true ∧ l.has_rekor_bundle = false)
    (hnomatch : ∀ l ∈ trusted_layers,
      ¬(l.cert_validates = true ∧ l.has_rekor_bundle = true)) :
    (verify_certificate fetch spec_certificate_verifier_from_pem
        spec_verify_constraints image certificate certificate_chain
        true annotations).1 =
      VerifyOutcome.err "verification failed: no signature found to verify" := by
  rw [verify_certificate_spec_eval fetch image certificate certificate_chain
    true annotations digest trusted_layers hfetch]
  rw [if_neg]
  intro hall
  have hcert := List.all_eq_true.mp hall
    (Constraint.certificate true)
    (by unfold certificate_path_constraints; exact List.mem_cons_self _ _)
  rw [List.any_eq_true] at hcert
  obtain ⟨l, hl, hmatches⟩ := hcert
  unfold spec_constraint_matches at hmatches
  simp only [Bool.not_true, Bool.false_or, Bool.and_eq_true] at hmatches
  exact hnomatch l hl ⟨hmatches.1, hmatches.2⟩

/-- Layer set for the C6 witness: a single validating, bundle-less layer. -/
def c6w_layers : List SpecLayer := [c6_bad_layer]

/-- Fetch oracle for the C6 witness. -/
def c6w_fetch : FetchOracle SpecLayer :=
  fun _ => Except.ok ("sha256:eee", c6w_layers)

/-- Witness for the amended C6 at a concrete input. -/
theorem claim_C6_witness :
    (verify_certificate c6w_fetch spec_certificate_verifier_from_pem
        spec_verify_constraints "registry.example/app:v1" [48] none true none).1 =
      VerifyOutcome.err "verification failed: no signature found to verify" := by
  exact claim_C6_missing_bundle_fails c6w_fetch "registry.example/app:v1" [48]
    none none "sha256:eee" c6w_layers rfl
    ⟨c6_bad_layer, by decide, rfl, rfl⟩
    (by decide)

/-- C10: verify_certificate validates nothing before the network fetch — a
fetch failure is returned to the caller with the certificate never parsed,
whatever the certificate bytes, and a certificate parse failure surfaces only
after one successful fetch. -/
theorem claim_C10_fetch_precedes_certificate_parse :
    ∀ {CertV Layer : Type} (fetch : FetchOracle Layer)
      (from_pem : FromPemOracle CertV) (vc : ConstraintsOracle CertV Layer)
      (image : String) (certificate : List Nat)
      (certificate_chain : Option (List (List Nat)))
      (require_rekor_bundle : Bool) (annotations : Option Annots),
      (∀ e, fetch image = Except.error e →
        verify_certificate fetch from_pem vc image certificate certificate_chain
          require_rekor_bundle annotations = (VerifyOutcome.err e, 1, 0)) ∧
      (∀ digest trusted_layers e,
        fetch image = Except.ok (digest, trusted_layers) →
        from_pem certificate require_rekor_bundle
          (certificate_chain.map (fun certs => certs.map (fun cert_data =>
            { data := cert_data, encoding := CertificateEncoding.Pem }))) =
          Except.error e →
        verify_certificate fetch from_pem vc image certificate certificate_chain
          require_rekor_bundle annotations = (VerifyOutcome.err e, 1, 1)) := by
  intro CertV Layer fetch from_pem vc image certificate certificate_chain
    require_rekor_bundle annotations
  constructor
  · intro e he
    unfold verify_certificate
    rw [he]
  · intro digest trusted_layers e hok hpem
    unfold verify_certificate
    rw [hok]
    dsimp only
    rw [hpem]

/-- Registry access sources (policy_fetcher Sources): opaque to this core,
modelled by an abstract tag. -/
structure Sources where
  tag : String
deriving DecidableEq, Repr

/-- The Default value of Sources used by sources.unwrap_or_default(). -/
def Sources.deflt : Sources := { tag := "" }

/-- The sigstore registry ClientConfig obtained from Sources via the external
From conversion, kept abstract as the sources it came from. -/
structure ClientConfig where
  from_sources : Sources
deriving DecidableEq, Repr

/-- The external From impl Sources → ClientConfig. -/
def sources_into_client_config (s : Sources) : ClientConfig :=
  { from_sources := s }

/-- The trust-root repository snapshot: exposes rekor_pub_key() and
fulcio_certs() accessors. -/
structure TufRepository where
  rekor_pub_key : String
  fulcio_certs : List Certificate
deriving DecidableEq, Repr

/-- A policy_fetcher certificate (the custom-data fulcio certs), converted
into a sigstore registry Certificate before installation. -/
structure PfCertificate where
  data : List Nat
  encoding : CertificateEncoding
deriving DecidableEq, Repr

/-- The external From impl policy_fetcher Certificate → sigstore registry
Certificate: field-wise. -/
def pf_certificate_into (c : PfCertificate) : Certificate :=
  { data := c.data, encoding := c.encoding }

/-- FulcioAndRekorData from policy_fetcher. -/
inductive FulcioAndRekorData where
  | FromTufRepository (repo : TufRepository)
  | FromCustomData (rekor_public_key : Option String)
      (fulcio_certs : List PfCertificate)
deriving DecidableEq, Repr

/-- The sigstore cosign ClientBuilder, modelled by the configuration its
setters accumulate: none/false until the corresponding with_/enable_ call. -/
structure CosignClientBuilder where
  oci_client_config : Option ClientConfig
  rekor_pub_key : Option String
  fulcio_certs : Option (List Certificate)
  registry_caching : Bool
deriving DecidableEq, Repr

/-- ClientBuilder::default(). -/
def CosignClientBuilder.deflt : CosignClientBuilder :=
  { oci_client_config := none, rekor_pub_key := none, fulcio_certs := none,
    registry_caching := false }

/-- ClientBuilder::with_oci_client_config. -/
def CosignClientBuilder.with_oci_client_config (b : CosignClientBuilder)
    (c : ClientConfig) : CosignClientBuilder :=
  { b with oci_client_config := some c }

/-- ClientBuilder::with_rekor_pub_key. -/
def CosignClientBuilder.with_rekor_pub_key (b : CosignClientBuilder)
    (key : String) : CosignClientBuilder :=
  { b with rekor_pub_key := some key }

/-- ClientBuilder::with_fulcio_certs. -/
def CosignClientBuilder.with_fulcio_certs (b : CosignClientBuilder)
    (certs : List Certificate) : CosignClientBuilder :=
  { b with fulcio_certs := some certs }

/-- ClientBuilder::enable_registry_caching. -/
def CosignClientBuilder.enable_registry_caching (b : CosignClientBuilder) :
    CosignClientBuilder :=
  { b with registry_caching := true }

/-- Oracle for the external ClientBuilder::build step, which can fail on
malformed material. -/
abbrev BuildOracle (CosignClient : Type) :=
  CosignClientBuilder → Except String CosignClient

/-- Client::build_cosign_client. Returns the build result together with the
warnings emitted during construction (the three tracing::warn! calls of the
no-trust-data branch). -/
def build_cosign_client {CosignClient : Type} (build : BuildOracle CosignClient)
    (sources : Option Sources)
    (fulcio_and_rekor_data : Option FulcioAndRekorData) :
    Except String CosignClient × List String :=
  let client_config : ClientConfig :=
    sources_into_client_config (sources.getD Sources.deflt)
  let cosign_client_builder :=
    CosignClientBuilder.deflt.with_oci_client_config client_config
  let step : CosignClientBuilder × List String :=
    match fulcio_and_rekor_data with
    | some (.FromTufRepository repo) =>
      ((cosign_client_builder.with_rekor_pub_key repo.rekor_pub_key).with_fulcio_certs
        repo.fulcio_certs, [])
    | some (.FromCustomData rekor_public_key fulcio_certs) =>
      let b1 :=
        match rekor_public_key with
        | some pk => cosign_client_builder.with_rekor_pub_key pk
        | none => cosign_client_builder
      let b2 :=
        if fulcio_certs.isEmpty then b1
        else b1.with_fulcio_certs (fulcio_certs.map pf_certificate_into)
      (b2, [])
    | none =>
      (cosign_client_builder,
       ["Sigstore Verifier created without Fulcio data: keyless signatures are going to be discarded because they cannot be verified",
        "Sigstore Verifier created without Rekor data: transparency log data won't be used",
        "Sigstore capabilities are going to be limited"])
  ((build step.1.enable_registry_caching).mapError
    (fun e => "could not build a cosign client: " ++ e), step.2)

/-- C7: with custom trust data, the Rekor key is installed exactly when it is
present and the Fulcio certificate set exactly when it is non-empty, each
independently (read off the builder state via the identity build oracle); and
for every construction input, registry caching is enabled on the builder that
is handed to the build step. -/
theorem claim_C7_custom_trust_data_installation :
    ∀ (sources : Option Sources) (rekor_public_key : Option String)
      (fulcio_certs : List PfCertificate)
      (fulcio_and_rekor_data : Option FulcioAndRekorData),
      (build_cosign_client Except.ok sources
          (some (FulcioAndRekorData.FromCustomData rekor_public_key fulcio_certs))).1 =
        Except.ok
          { oci_client_config :=
              some (sources_into_client_config (sources.getD Sources.deflt)),
            rekor_pub_key := rekor_public_key,
            fulcio_certs :=
              if fulcio_certs.isEmpty then none
              else some (fulcio_certs.map pf_certificate_into),
            registry_caching := true } ∧
      (∀ b, (build_cosign_client Except.ok sources fulcio_and_rekor_data).1 =
          Except.ok b → b.registry_caching = true) := by
  intro sources rekor_public_key fulcio_certs fulcio_and_rekor_data
  constructor
  · cases rekor_public_key with
    | none =>
      by_cases hempty : fulcio_certs.isEmpty
      · unfold build_cosign_client
        dsimp only
        rw [hempty]
        rfl
      · rw [Bool.not_eq_true] at hempty
        unfold build_cosign_client
        dsimp only
        rw [hempty]
        rfl
    | some pk =>
      by_cases hempty : fulcio_certs.isEmpty
      · unfold build_cosign_client
        dsimp only
        rw [hempty]
        rfl
      · rw [Bool.not_eq_true] at hempty
        unfold build_cosign_client
        dsimp only
        rw [hempty]
        rfl
  · intro b hb
    cases fulcio_and_rekor_data with
    | none =>
      unfold build_cosign_client at hb
      dsimp only at hb
      rw [← Except.ok.inj hb]
      rfl
    | some frd =>
      cases frd with
      | FromTufRepository repo =>
        unfold build_cosign_client at hb
        dsimp only at hb
        rw [← Except.ok.inj hb]
        rfl
      | FromCustomData rk fc =>
        unfold build_cosign_client at hb
        dsimp only at hb
        by_cases hempty : fc.isEmpty
        · rw [hempty] at hb
          cases rk
          · rw [← Except.ok.inj hb]
            rfl
          · rw [← Except.ok.inj hb]
            rfl
        · rw [Bool.not_eq_true] at hempty
          rw [hempty] at hb
          cases rk
          · rw [← Except.ok.inj hb]
            rfl
          · rw [← Except.ok.inj hb]
            rfl

/-- The three warnings of the no-trust-data construction branch. -/
def absent_trust_warnings : List String :=
  ["Sigstore Verifier created without Fulcio data: keyless signatures are going to be discarded because they cannot be verified",
   "Sigstore Verifier created without Rekor data: transparency log data won't be used",
   "Sigstore capabilities are going to be limited"]

/-- The builder state the no-trust-data path hands to the build step: the
registry config from the sources, no Rekor key, no Fulcio certificates,
caching enabled. -/
def absent_builder_state (sources : Option Sources) : CosignClientBuilder :=
  { oci_client_config :=
      some (sources_into_client_config (sources.getD Sources.deflt)),
    rekor_pub_key := none, fulcio_certs := none, registry_caching := true }

/-- C8: constructing the client with no trust-root data installs no Rekor key
and no Fulcio certificates, enables caching, emits exactly the three
degraded-mode warnings, and the build still goes through: whenever the build
step accepts that builder, construction returns its client. -/
theorem claim_C8_absent_trust_data :
    ∀ (sources : Option Sources),
      build_cosign_client Except.ok sources none =
        (Except.ok (absent_builder_state sources), absent_trust_warnings) ∧
      (build_cosign_client Except.ok sources none).2.length = 3 ∧
      (∀ {CosignClient : Type} (build : BuildOracle CosignClient)
          (c : CosignClient),
        build (absent_builder_state sources) = Except.ok c →
        (build_cosign_client build sources none).1 = Except.ok c) := by
  intro sources
  refine ⟨rfl, rfl, ?_⟩
  intro CosignClient build c hbuild
  have hstate : (build_cosign_client build sources none).1 =
      Except.mapError (fun e => "could not build a cosign client: " ++ e)
        (build (absent_builder_state sources)) := rfl
  rw [hstate, hbuild]
  rfl

/-- Witness for C8's build-success conjunct at a concrete input. -/
theorem claim_C8_witness :
    (build_cosign_client (fun b => Except.ok b.registry_caching)
        (some { tag := "registry.example" }) none).1 = Except.ok true := by
  exact ((claim_C8_absent_trust_data (some { tag := "registry.example" })).2.2
    (fun b => Except.ok b.registry_caching) true rfl)

/-- C9: custom trust data with no Rekor key and an empty Fulcio set drives
the builder to exactly the state of the no-trust-data path — for every build
step and sources the built result is identical — yet the three degraded-mode
warnings are emitted only on the no-trust-data path. -/
theorem claim_C9_effectively_absent_custom_data :
    ∀ (sources : Option Sources) {CosignClient : Type}
      (build : BuildOracle CosignClient),
      (build_cosign_client build sources
          (some (FulcioAndRekorData.FromCustomData none []))).1 =
        (build_cosign_client build sources none).1 ∧
      (build_cosign_client build sources
          (some (FulcioAndRekorData.FromCustomData none []))).2 = [] ∧
      (build_cosign_client build sources none).2 = absent_trust_warnings ∧
      absent_trust_warnings.length = 3 := by
  intro sources CosignClient build
  exact ⟨rfl, rfl, rfl, rfl⟩

end PolicyEvaluator
